import Mathlib

/-!
Verification of the netplay session-lifecycle state machine
(`src/netplay/netplay_state.rs`).

The lifecycle machine itself is embedded directly from the source. The
collaborators it drives — the Connection Attempt sub-state-machine
(`ConnectingState`), the rollback synchronization session
(`NetplaySession`) and the digest hex rendering — live outside the given
sources; their data shapes are modelled from the spec (sections 3, 4.2,
4.3) and their step operations are passed in as explicit parameters, so
every theorem quantifies over the collaborator behaviour.
-/

namespace NesBundler

/-- Modelled from the spec: the shared multi-threaded async task pool
handle (a reference-counted tokio runtime in the source); opaque to the
lifecycle machine, which only carries it across transitions. -/
structure Rt where
  id : Nat
  deriving DecidableEq

/-- Modelled from the spec: immutable build/runtime configuration; opaque
to the lifecycle machine. -/
structure NetplayBuildConfiguration where
  raw : Nat
  deriving DecidableEq

/-- Modelled from the spec: the md5 content hash of the loaded payload, a
fixed-size byte digest rendered in lowercase hex to derive room
identifiers. -/
structure Digest where
  bytes : List Nat
  deriving DecidableEq

/-- Modelled from the spec: an opaque simulation snapshot
(`LocalGameState`), tagged with its simulation step number. -/
structure LocalGameState where
  frame : Nat
  data : Nat
  deriving DecidableEq

/-- One participant input per step; opaque u8 in the source. -/
abbrev JoypadInput := Nat

/-- MAX_PLAYERS from the settings module: two participant slots. -/
def MAX_PLAYERS : Nat := 2

/-- Per-step inputs, one per participant slot. -/
structure Inputs where
  p0 : JoypadInput
  p1 : JoypadInput
  deriving DecidableEq

/-- Modelled from the spec: the peer input mapping, assigning participant
slots to peers; an array of MAX_PLAYERS slot ids in the source. -/
structure InputMapping where
  ids : List Nat
  deriving DecidableEq

/-- Modelled from the spec: the data bundled into a start method — an
optional peer input mapping, the snapshot to start from, and the session
identifier. -/
structure StartState where
  input_mapping : Option InputMapping
  game_state : LocalGameState
  session_id : String
  deriving DecidableEq

/-- Modelled from the spec: how a Connection Attempt is to be
established. -/
inductive StartMethod where
  | Join (ss : StartState) (room_name : String)
  | MatchWithRandom (ss : StartState)
  | Resume (ss : StartState)
  deriving DecidableEq

/-- The session identifier embedded in a start method, as recovered by
the match in the Connecting advance (netplay_state.rs lines 176 to 180). -/
def StartMethod.session_id : StartMethod → String
  | .Join ss _ => ss.session_id
  | .MatchWithRandom ss => ss.session_id
  | .Resume ss => ss.session_id

/-- Modelled from the spec: the active synchronized session
(`NetplaySession`): the negotiated peer input mapping and the rolling
window of the two most recently confirmed snapshots ordered oldest to
newest; field 0 is the older snapshot, field 1 the newer. -/
structure NetplaySession where
  input_mapping : Option InputMapping
  last_confirmed_game_state0 : LocalGameState
  last_confirmed_game_state1 : LocalGameState
  deriving DecidableEq

/-- Modelled from the spec: a Connection Attempt, the opaque signaling
sub-state-machine whose observable states are in-progress, connected
(carrying the usable synchronized session and the start method that
produced it) and failed (carrying a reason string). A progress counter
stands for its private internal state. -/
inductive ConnectingState where
  | Connecting (start_method : StartMethod) (progress : Nat)
  | Connected (state : NetplaySession) (start_method : StartMethod)
  | Failed (reason : String)
  deriving DecidableEq

/-- Whether a Connection Attempt reports connected: the test performed by
the `if let` patterns on the Connected variant in the source. -/
def ConnectingState.isConnected : ConnectingState → Bool
  | .Connected _ _ => true
  | _ => false

/-- The lifecycle value: the five shared session context fields plus one
state-specific payload (netplay_state.rs lines 38 to 45). -/
structure Netplay (S : Type) where
  rt : Rt
  config : NetplayBuildConfiguration
  netplay_id : String
  rom_hash : Digest
  initial_game_state : LocalGameState
  state : S
  deriving DecidableEq

/-- Modelled from the spec: `ConnectingState::connect` begins establishing
a peer connection asynchronously and never blocks the caller; the fresh
attempt handle is in progress and retains the start method it was started
with. The shared context is taken but only used by the opaque transport. -/
def ConnectingState.connect {S : Type} (_ctx : Netplay S) (start_method : StartMethod) :
    ConnectingState :=
  ConnectingState.Connecting start_method 0

/-- The private `Netplay::from` (netplay_state.rs lines 47 to 58): rebuild
the lifecycle value around a new payload, copying every shared context
field. Named `rebuild` because `from` is reserved in Lean. -/
def Netplay.rebuild {T S : Type} (state : T) (other : Netplay S) : Netplay T :=
  { rt := other.rt
    config := other.config
    netplay_id := other.netplay_id
    rom_hash := other.rom_hash
    initial_game_state := other.initial_game_state
    state := state }

/-- The Disconnected payload (netplay_state.rs line 60): no fields. -/
structure Disconnected where
  mk ::
  deriving DecidableEq

/-- The Connected payload (netplay_state.rs lines 62 to 65). -/
structure Connected where
  netplay_session : NetplaySession
  session_id : String
  deriving DecidableEq

/-- The Resuming payload (netplay_state.rs lines 67 to 70): exactly two
owned Connection Attempts. -/
structure Resuming where
  attempt1 : ConnectingState
  attempt2 : ConnectingState
  deriving DecidableEq

/-- The Failed payload (netplay_state.rs lines 22 to 24). -/
structure Failed where
  reason : String
  deriving DecidableEq

/-- The lifecycle tagged union (netplay_state.rs lines 14 to 20). -/
inductive NetplayState where
  | Disconnected (n : Netplay NesBundler.Disconnected)
  | Connecting (n : Netplay ConnectingState)
  | Connected (n : Netplay NesBundler.Connected)
  | Resuming (n : Netplay NesBundler.Resuming)
  | Failed (n : Netplay NesBundler.Failed)
  deriving DecidableEq

/-- The five shared context fields of a lifecycle value, gathered for
stating preservation. -/
structure SharedContext where
  rt : Rt
  config : NetplayBuildConfiguration
  netplay_id : String
  rom_hash : Digest
  initial_game_state : LocalGameState
  deriving DecidableEq

/-- The shared context of a lifecycle value. -/
def Netplay.ctx {S : Type} (n : Netplay S) : SharedContext :=
  { rt := n.rt
    config := n.config
    netplay_id := n.netplay_id
    rom_hash := n.rom_hash
    initial_game_state := n.initial_game_state }

/-- The shared context of the whole tagged union. -/
def NetplayState.ctx : NetplayState → SharedContext
  | .Disconnected n => n.ctx
  | .Connecting n => n.ctx
  | .Connected n => n.ctx
  | .Resuming n => n.ctx
  | .Failed n => n.ctx

/-- Lowercase hexadecimal digit character for a value below 16. -/
def hexDigitChar (n : Nat) : Char :=
  if n < 10 then Char.ofNat (48 + n) else Char.ofNat (87 + n)

/-- Modelled from the spec: the digest is rendered two lowercase hex
digits per byte, high nibble first, in byte order — the behaviour of
formatting an md5 digest with the lowercase hex specifier. -/
def hexChars : List Nat → List Char
  | [] => []
  | b :: bs => hexDigitChar (b % 256 / 16) :: hexDigitChar (b % 16) :: hexChars bs

/-- The lowercase hex form of the content hash. -/
def hexOfDigest (d : Digest) : String :=
  String.mk (hexChars d.bytes)

/-- `Resuming::new` (netplay_state.rs lines 71 to 96): spawn two
Connection Attempts with the Resume start method, reusing the session
input mapping and session identifier for both; attempt1 is seeded from
the newest confirmed snapshot (index 1), attempt2 from the older one
(index 0). -/
def Resuming.new (netplay : Netplay Connected) : Resuming :=
  let netplay_session := netplay.state.netplay_session
  let input_mapping := netplay_session.input_mapping
  let session_id := netplay.state.session_id
  { attempt1 :=
      ConnectingState.connect netplay
        (StartMethod.Resume
          { input_mapping := input_mapping
            game_state := netplay_session.last_confirmed_game_state1
            session_id := session_id })
    attempt2 :=
      ConnectingState.connect netplay
        (StartMethod.Resume
          { input_mapping := input_mapping
            game_state := netplay_session.last_confirmed_game_state0
            session_id := session_id }) }

/-- `Netplay::<Disconnected>::new` (netplay_state.rs lines 99 to 121). The
async pool and the freshly generated UUID string come from external
collaborators and are modelled as arguments. Returns the new lifecycle
value together with the contents of the caller's mutable option after the
call: `get_or_insert_with` writes the fresh UUID through the option when
it held none and leaves it untouched otherwise, and the stored identifier
is copied from whatever the option then holds. -/
def Netplay.new (fresh_rt : Rt) (fresh_uuid : String)
    (config : NetplayBuildConfiguration) (netplay_id : Option String)
    (rom_hash : Digest) (initial_game_state : LocalGameState) :
    Netplay Disconnected × Option String :=
  let id := netplay_id.getD fresh_uuid
  ({ rt := fresh_rt
     config := config
     netplay_id := id
     rom_hash := rom_hash
     initial_game_state := initial_game_state
     state := Disconnected.mk }, some id)

/-- `join` (netplay_state.rs lines 148 to 154): start a Connection
Attempt with the given start method and enter Connecting. -/
def Netplay.join (self : Netplay Disconnected) (start_method : StartMethod) : NetplayState :=
  NetplayState.Connecting (Netplay.rebuild (ConnectingState.connect self start_method) self)

/-- `join_by_name` (netplay_state.rs lines 123 to 134): session id is the
room name, an underscore, and the lowercase hex of the content hash. -/
def Netplay.join_by_name (self : Netplay Disconnected) (room_name : String) : NetplayState :=
  let initial_state := self.initial_game_state
  let session_id := room_name ++ "_" ++ hexOfDigest self.rom_hash
  self.join
    (StartMethod.Join
      { game_state := initial_state
        input_mapping := none
        session_id := session_id }
      room_name)

/-- `match_with_random` (netplay_state.rs lines 136 to 146): session id is
the lowercase hex of the content hash alone. -/
def Netplay.match_with_random (self : Netplay Disconnected) : NetplayState :=
  let initial_state := self.initial_game_state
  let session_id := hexOfDigest self.rom_hash
  self.join
    (StartMethod.MatchWithRandom
      { game_state := initial_state
        input_mapping := none
        session_id := session_id })

/-- `Netplay::<ConnectingState>::cancel` (netplay_state.rs lines 158 to
161): drop the attempt, keep only the shared context. -/
def Netplay.cancelConnecting (self : Netplay ConnectingState) : Netplay Disconnected :=
  Netplay.rebuild Disconnected.mk self

/-- `Netplay::<ConnectingState>::advance` (netplay_state.rs lines 163 to
194): step the owned Connection Attempt once, then transition on its
observable state. The attempt's own step operation is the collaborator
parameter `adv`. -/
def Netplay.advanceConnecting (adv : ConnectingState → ConnectingState)
    (self : Netplay ConnectingState) : NetplayState :=
  let self := { self with state := adv self.state }
  match self.state with
  | ConnectingState.Connected connected_session start_method =>
      NetplayState.Connected
        { rt := self.rt
          config := self.config
          netplay_id := self.netplay_id
          rom_hash := self.rom_hash
          initial_game_state := self.initial_game_state
          state :=
            { netplay_session := connected_session
              session_id := start_method.session_id } }
  | ConnectingState.Failed reason =>
      NetplayState.Failed
        { rt := self.rt
          config := self.config
          netplay_id := self.netplay_id
          rom_hash := self.rom_hash
          initial_game_state := self.initial_game_state
          state := { reason := reason } }
  | ConnectingState.Connecting sm p =>
      NetplayState.Connecting { self with state := ConnectingState.Connecting sm p }

/-- `Netplay::<Connected>::resume` (netplay_state.rs lines 198 to 209). -/
def Netplay.resumeConnected (self : Netplay Connected) : Netplay Resuming :=
  Netplay.rebuild (Resuming.new self) self

/-- `Netplay::<Connected>::advance` (netplay_state.rs lines 211 to 229).
The rollback synchronization collaborator's one-step operation is the
parameter `step_session`; it returns the mutated session and whether the
step reported a synchronization fault (the is_err test in the source). -/
def Netplay.advanceConnected
    (step_session : NetplaySession → Inputs → InputMapping → NetplaySession × Bool)
    (self : Netplay Connected) (inputs : Inputs) : NetplayState :=
  match self.state.netplay_session.input_mapping with
  | some input_mapping =>
      let stepped := step_session self.state.netplay_session inputs input_mapping
      let self := { self with state := { self.state with netplay_session := stepped.1 } }
      if stepped.2 then
        NetplayState.Resuming (Netplay.resumeConnected self)
      else
        NetplayState.Connected self
  | none =>
      NetplayState.Connected
        { self with
          state :=
            { self.state with
              netplay_session :=
                { self.state.netplay_session with
                  input_mapping := some { ids := [0, 1] } } } }

/-- `disconnect` (netplay_state.rs lines 230 to 233). -/
def Netplay.disconnect (self : Netplay Connected) : Netplay Disconnected :=
  Netplay.rebuild Disconnected.mk self

/-- `Netplay::<Resuming>::advance` (netplay_state.rs lines 237 to 262):
step both owned attempts once, attempt1 first, then transition on their
observable states with attempt1 winning ties. -/
def Netplay.advanceResuming (adv : ConnectingState → ConnectingState)
    (self : Netplay Resuming) : NetplayState :=
  let self := { self with state := { self.state with attempt1 := adv self.state.attempt1 } }
  let self := { self with state := { self.state with attempt2 := adv self.state.attempt2 } }
  if self.state.attempt1.isConnected then
    NetplayState.Connecting
      { rt := self.rt
        config := self.config
        netplay_id := self.netplay_id
        rom_hash := self.rom_hash
        initial_game_state := self.initial_game_state
        state := self.state.attempt1 }
  else if self.state.attempt2.isConnected then
    NetplayState.Connecting
      { rt := self.rt
        config := self.config
        netplay_id := self.netplay_id
        rom_hash := self.rom_hash
        initial_game_state := self.initial_game_state
        state := self.state.attempt2 }
  else
    NetplayState.Resuming self

/-- The Resuming advance again, with the attempt collaborator's side
effects made explicit by state passing: `adv` threads a state through the
two attempt steps in source order — attempt1 on line 238, then attempt2 on
line 239 — before the same transition logic runs. -/
def Netplay.advanceResumingT {σ : Type}
    (adv : ConnectingState → σ → ConnectingState × σ)
    (self : Netplay Resuming) (s : σ) : NetplayState × σ :=
  let r1 := adv self.state.attempt1 s
  let r2 := adv self.state.attempt2 r1.2
  let self : Netplay Resuming :=
    { self with state := { attempt1 := r1.1, attempt2 := r2.1 } }
  (if self.state.attempt1.isConnected then
    NetplayState.Connecting
      { rt := self.rt
        config := self.config
        netplay_id := self.netplay_id
        rom_hash := self.rom_hash
        initial_game_state := self.initial_game_state
        state := self.state.attempt1 }
  else if self.state.attempt2.isConnected then
    NetplayState.Connecting
      { rt := self.rt
        config := self.config
        netplay_id := self.netplay_id
        rom_hash := self.rom_hash
        initial_game_state := self.initial_game_state
        state := self.state.attempt2 }
  else
    NetplayState.Resuming self, r2.2)

/-- `Netplay::<Resuming>::cancel` (netplay_state.rs lines 264 to 267). -/
def Netplay.cancelResuming (self : Netplay Resuming) : Netplay Disconnected :=
  Netplay.rebuild Disconnected.mk self

/-- `Netplay::<Failed>::resume` (netplay_state.rs lines 270 to 274). -/
def Netplay.resumeFailed (self : Netplay Failed) : Netplay Disconnected :=
  Netplay.rebuild Disconnected.mk self

/-- `NetplayState::advance` (netplay_state.rs lines 27 to 35), the
per-step driver, with the two collaborator step operations passed
explicitly. -/
def NetplayState.advance (adv : ConnectingState → ConnectingState)
    (step_session : NetplaySession → Inputs → InputMapping → NetplaySession × Bool)
    (self : NetplayState) (inputs : Inputs) : NetplayState :=
  match self with
  | NetplayState.Disconnected _ => self
  | NetplayState.Connecting netplay => netplay.advanceConnecting adv
  | NetplayState.Connected netplay => netplay.advanceConnected step_session inputs
  | NetplayState.Resuming netplay => netplay.advanceResuming adv
  | NetplayState.Failed _ => self

/-! Concrete sample values, used to witness the conditional theorems. -/

/-- A sample task pool handle. -/
def sampleRt : Rt := { id := 0 }

/-- A sample configuration. -/
def sampleConfig : NetplayBuildConfiguration := { raw := 0 }

/-- A sample two-byte content digest. -/
def sampleDigest : Digest := { bytes := [222, 173] }

/-- A sample snapshot at a given step number. -/
def sampleState (k : Nat) : LocalGameState := { frame := k, data := k }

/-- A sample peer input mapping. -/
def sampleMapping : InputMapping := { ids := [0, 1] }

/-- A sample synchronized session with a negotiated mapping and two
confirmed snapshots. -/
def sampleSession : NetplaySession :=
  { input_mapping := some sampleMapping
    last_confirmed_game_state0 := sampleState 10
    last_confirmed_game_state1 := sampleState 20 }

/-- A sample start state. -/
def sampleStartState : StartState :=
  { input_mapping := none
    game_state := sampleState 0
    session_id := "room" }

/-- Sample per-step inputs. -/
def sampleInputs : Inputs := { p0 := 3, p1 := 5 }

/-- A sample shared context around a given payload. -/
def sampleNetplay {S : Type} (s : S) : Netplay S :=
  { rt := sampleRt
    config := sampleConfig
    netplay_id := "id"
    rom_hash := sampleDigest
    initial_game_state := sampleState 0
    state := s }

/-- A Resuming value whose attempts are both still in progress. -/
def sampleResuming : Netplay Resuming :=
  sampleNetplay
    { attempt1 := ConnectingState.Connecting (StartMethod.Resume sampleStartState) 4
      attempt2 := ConnectingState.Connecting (StartMethod.Resume sampleStartState) 7 }

/-- A Connecting value whose attempt is still in progress. -/
def sampleConnecting : Netplay ConnectingState :=
  sampleNetplay (ConnectingState.Connecting (StartMethod.Resume sampleStartState) 4)

/-- A Connected value with a negotiated mapping. -/
def sampleConnectedN : Netplay Connected :=
  sampleNetplay { netplay_session := sampleSession, session_id := "room" }

/-- A Connected value with no negotiated mapping yet. -/
def sampleConnectedNoMap : Netplay Connected :=
  sampleNetplay
    { netplay_session := { sampleSession with input_mapping := none }
      session_id := "room" }

/-- An attempt step collaborator that always reports connected. -/
def advAlwaysConnected : ConnectingState → ConnectingState :=
  fun _ => ConnectingState.Connected sampleSession (StartMethod.Resume sampleStartState)

/-- A synchronization step collaborator that always reports a fault and
leaves the session unchanged. -/
def stepAlwaysFault : NetplaySession → Inputs → InputMapping → NetplaySession × Bool :=
  fun ns _ _ => (ns, true)

/-! The claims. -/

/-- Claim C1: one advance on a Resuming value yields Connecting carrying
the stepped attempt1 when it reports connected (attempt2 is discarded),
else Connecting carrying the stepped attempt2 when that one reports
connected (attempt1 is discarded), else the value remains Resuming with
both stepped attempts; when both report connected on the same step,
attempt1 — the one seeded from the newer snapshot — wins. -/
theorem resuming_advance_cases (adv : ConnectingState → ConnectingState)
    (n : Netplay Resuming) :
    ((adv n.state.attempt1).isConnected = true →
      Netplay.advanceResuming adv n =
        NetplayState.Connecting (Netplay.rebuild (adv n.state.attempt1) n)) ∧
    ((adv n.state.attempt1).isConnected = false →
      (adv n.state.attempt2).isConnected = true →
      Netplay.advanceResuming adv n =
        NetplayState.Connecting (Netplay.rebuild (adv n.state.attempt2) n)) ∧
    ((adv n.state.attempt1).isConnected = false →
      (adv n.state.attempt2).isConnected = false →
      Netplay.advanceResuming adv n =
        NetplayState.Resuming
          (Netplay.rebuild
            { attempt1 := adv n.state.attempt1
              attempt2 := adv n.state.attempt2 } n)) := by
  refine ⟨fun h1 => ?_, fun h1 h2 => ?_, fun h1 h2 => ?_⟩ <;>
    simp [Netplay.advanceResuming, Netplay.rebuild, h1]
  · simp [h2]
  · simp [h2]

/-- Witness for claim C1: a concrete Resuming value whose first stepped
attempt reports connected transitions to Connecting carrying it. -/
theorem resuming_advance_cases_witness :
    (advAlwaysConnected sampleResuming.state.attempt1).isConnected = true ∧
    Netplay.advanceResuming advAlwaysConnected sampleResuming =
      NetplayState.Connecting
        (Netplay.rebuild (advAlwaysConnected sampleResuming.state.attempt1) sampleResuming) :=
  ⟨by decide, (resuming_advance_cases advAlwaysConnected sampleResuming).1 (by decide)⟩

/-- Claim C4: one advance on a Connecting value steps the owned attempt
once and transitions on its report: connected yields Connected whose
session identifier is the one embedded in the start method that produced
the connection; failed yields Failed carrying the reported reason;
otherwise the value stays Connecting holding the stepped attempt. Every
branch returns a lifecycle value, so the failure travels as data. -/
theorem connecting_advance_cases (adv : ConnectingState → ConnectingState)
    (n : Netplay ConnectingState) :
    (∀ ns sm, adv n.state = ConnectingState.Connected ns sm →
      Netplay.advanceConnecting adv n =
        NetplayState.Connected
          (Netplay.rebuild { netplay_session := ns, session_id := sm.session_id } n)) ∧
    (∀ reason, adv n.state = ConnectingState.Failed reason →
      Netplay.advanceConnecting adv n =
        NetplayState.Failed (Netplay.rebuild { reason := reason } n)) ∧
    (∀ sm p, adv n.state = ConnectingState.Connecting sm p →
      Netplay.advanceConnecting adv n =
        NetplayState.Connecting (Netplay.rebuild (adv n.state) n)) := by
  refine ⟨fun ns sm h => ?_, fun reason h => ?_, fun sm p h => ?_⟩ <;>
    simp [Netplay.advanceConnecting, Netplay.rebuild, h]

/-- Witness for claim C4: a concrete Connecting value whose stepped
attempt reports connected transitions to Connected with the session
identifier recovered from the start method. -/
theorem connecting_advance_cases_witness :
    advAlwaysConnected sampleConnecting.state =
      ConnectingState.Connected sampleSession (StartMethod.Resume sampleStartState) ∧
    Netplay.advanceConnecting advAlwaysConnected sampleConnecting =
      NetplayState.Connected
        (Netplay.rebuild
          { netplay_session := sampleSession
            session_id := (StartMethod.Resume sampleStartState).session_id }
          sampleConnecting) :=
  ⟨rfl,
    (connecting_advance_cases advAlwaysConnected sampleConnecting).1
      sampleSession (StartMethod.Resume sampleStartState) rfl⟩

/-- Claim C6: within one Resuming advance each owned attempt is stepped
exactly once, attempt1 before attempt2, whatever the attempts report —
shown on the state-passing embedding by logging every collaborator call;
the lifecycle result agrees with the pure advance. -/
theorem resuming_advance_steps_both_in_order
    (f : ConnectingState → ConnectingState) (n : Netplay Resuming)
    (log : List ConnectingState) :
    (Netplay.advanceResumingT (fun c s => (f c, s ++ [c])) n log).2 =
      log ++ [n.state.attempt1, n.state.attempt2] ∧
    (Netplay.advanceResumingT (fun c s => (f c, s ++ [c])) n log).1 =
      Netplay.advanceResuming f n := by
  constructor
  · simp [Netplay.advanceResumingT]
  · simp [Netplay.advanceResumingT, Netplay.advanceResuming]

/-- Claim C7: the per-step driver leaves a Disconnected value and a Failed
value unchanged, whatever the inputs and collaborators, so the failure
reason survives intact. -/
theorem advance_noop_on_disconnected_and_failed
    (adv : ConnectingState → ConnectingState)
    (step_session : NetplaySession → Inputs → InputMapping → NetplaySession × Bool)
    (inputs : Inputs) :
    (∀ n : Netplay Disconnected,
      NetplayState.advance adv step_session (NetplayState.Disconnected n) inputs =
        NetplayState.Disconnected n) ∧
    (∀ n : Netplay Failed,
      NetplayState.advance adv step_session (NetplayState.Failed n) inputs =
        NetplayState.Failed n) :=
  ⟨fun _ => rfl, fun _ => rfl⟩

/-- Claim C2: from Connected with a negotiated input mapping, a faulting
synchronization step yields Resuming owning exactly two attempts, both
started with the Resume start method carrying the session input mapping
and the Connected session identifier; attempt1 is seeded from the newest
confirmed snapshot (index 1 of the size-2 window) and attempt2 from the
older one (index 0); the shared context survives. -/
theorem connected_advance_fault
    (step_session : NetplaySession → Inputs → InputMapping → NetplaySession × Bool)
    (n : Netplay Connected) (inputs : Inputs) (im : InputMapping)
    (hm : n.state.netplay_session.input_mapping = some im)
    (herr : (step_session n.state.netplay_session inputs im).2 = true) :
    ∃ r : Netplay Resuming,
      Netplay.advanceConnected step_session n inputs = NetplayState.Resuming r ∧
      r.ctx = n.ctx ∧
      r.state.attempt1 =
        ConnectingState.connect r
          (StartMethod.Resume
            { input_mapping := (step_session n.state.netplay_session inputs im).1.input_mapping
              game_state :=
                (step_session n.state.netplay_session inputs im).1.last_confirmed_game_state1
              session_id := n.state.session_id }) ∧
      r.state.attempt2 =
        ConnectingState.connect r
          (StartMethod.Resume
            { input_mapping := (step_session n.state.netplay_session inputs im).1.input_mapping
              game_state :=
                (step_session n.state.netplay_session inputs im).1.last_confirmed_game_state0
              session_id := n.state.session_id }) := by
  refine
    ⟨Netplay.resumeConnected
        { n with
          state :=
            { n.state with
              netplay_session := (step_session n.state.netplay_session inputs im).1 } },
      ?_, rfl, rfl, rfl⟩
  simp [Netplay.advanceConnected, hm, herr]

/-- Witness for claim C2: a concrete Connected value under an
always-faulting synchronization collaborator enters Resuming with the two
Resume-seeded attempts. -/
theorem connected_advance_fault_witness :
    sampleConnectedN.state.netplay_session.input_mapping = some sampleMapping ∧
    (stepAlwaysFault sampleConnectedN.state.netplay_session sampleInputs sampleMapping).2 =
      true ∧
    ∃ r : Netplay Resuming,
      Netplay.advanceConnected stepAlwaysFault sampleConnectedN sampleInputs =
        NetplayState.Resuming r ∧
      r.ctx = sampleConnectedN.ctx ∧
      r.state.attempt1 =
        ConnectingState.connect r
          (StartMethod.Resume
            { input_mapping :=
                (stepAlwaysFault sampleConnectedN.state.netplay_session sampleInputs
                    sampleMapping).1.input_mapping
              game_state :=
                (stepAlwaysFault sampleConnectedN.state.netplay_session sampleInputs
                    sampleMapping).1.last_confirmed_game_state1
              session_id := sampleConnectedN.state.session_id }) ∧
      r.state.attempt2 =
        ConnectingState.connect r
          (StartMethod.Resume
            { input_mapping :=
                (stepAlwaysFault sampleConnectedN.state.netplay_session sampleInputs
                    sampleMapping).1.input_mapping
              game_state :=
                (stepAlwaysFault sampleConnectedN.state.netplay_session sampleInputs
                    sampleMapping).1.last_confirmed_game_state0
              session_id := sampleConnectedN.state.session_id }) :=
  ⟨rfl, rfl,
    connected_advance_fault stepAlwaysFault sampleConnectedN sampleInputs sampleMapping rfl rfl⟩

/-- Claim C3: every operation — the per-step driver with any inputs and
collaborators, join_by_name, match_with_random, join, both cancels,
disconnect, and both resumes — carries the five shared context fields of
its input unchanged into its result. -/
theorem shared_context_preserved
    (adv : ConnectingState → ConnectingState)
    (step_session : NetplaySession → Inputs → InputMapping → NetplaySession × Bool)
    (inputs : Inputs) :
    (∀ s : NetplayState, (NetplayState.advance adv step_session s inputs).ctx = s.ctx) ∧
    (∀ (n : Netplay Disconnected) (room : String), (n.join_by_name room).ctx = n.ctx) ∧
    (∀ n : Netplay Disconnected, n.match_with_random.ctx = n.ctx) ∧
    (∀ (n : Netplay Disconnected) (sm : StartMethod), (n.join sm).ctx = n.ctx) ∧
    (∀ n : Netplay ConnectingState, n.cancelConnecting.ctx = n.ctx) ∧
    (∀ n : Netplay Resuming, n.cancelResuming.ctx = n.ctx) ∧
    (∀ n : Netplay Connected, n.disconnect.ctx = n.ctx) ∧
    (∀ n : Netplay Connected, n.resumeConnected.ctx = n.ctx) ∧
    (∀ n : Netplay Failed, n.resumeFailed.ctx = n.ctx) := by
  refine ⟨?_, ?_, ?_, ?_, ?_, ?_, ?_, ?_, ?_⟩
  · intro s
    cases s with
    | Disconnected n => rfl
    | Connecting n =>
        show (Netplay.advanceConnecting adv n).ctx = (NetplayState.Connecting n).ctx
        dsimp only [Netplay.advanceConnecting]
        split <;> rfl
    | Connected n =>
        show (Netplay.advanceConnected step_session n inputs).ctx =
          (NetplayState.Connected n).ctx
        dsimp only [Netplay.advanceConnected]
        split
        · split <;> rfl
        · rfl
    | Resuming n =>
        show (Netplay.advanceResuming adv n).ctx = (NetplayState.Resuming n).ctx
        dsimp only [Netplay.advanceResuming]
        split
        · rfl
        · split <;> rfl
    | Failed n => rfl
  · intro n room; rfl
  · intro n; rfl
  · intro n sm; rfl
  · intro n; rfl
  · intro n; rfl
  · intro n; rfl
  · intro n; rfl
  · intro n; rfl

/-- Claim C5: from Connected with no negotiated peer input mapping, one
advance with any inputs assigns the default mapping of slots 0 and 1 and
stays Connected; the result does not mention the synchronization
collaborator or the inputs, so the step consumed neither. -/
theorem connected_advance_assigns_default_mapping
    (step_session : NetplaySession → Inputs → InputMapping → NetplaySession × Bool)
    (n : Netplay Connected) (inputs : Inputs)
    (hm : n.state.netplay_session.input_mapping = none) :
    Netplay.advanceConnected step_session n inputs =
      NetplayState.Connected
        { n with
          state :=
            { n.state with
              netplay_session :=
                { n.state.netplay_session with
                  input_mapping := some { ids := [0, 1] } } } } := by
  simp [Netplay.advanceConnected, hm]

/-- Witness for claim C5: a concrete mapping-free Connected value stays
Connected with the default mapping assigned, even under an always-faulting
synchronization collaborator — which is therefore never consulted. -/
theorem connected_advance_assigns_default_mapping_witness :
    sampleConnectedNoMap.state.netplay_session.input_mapping = none ∧
    Netplay.advanceConnected stepAlwaysFault sampleConnectedNoMap sampleInputs =
      NetplayState.Connected
        { sampleConnectedNoMap with
          state :=
            { sampleConnectedNoMap.state with
              netplay_session :=
                { sampleConnectedNoMap.state.netplay_session with
                  input_mapping := some { ids := [0, 1] } } } } :=
  ⟨rfl,
    connected_advance_assigns_default_mapping stepAlwaysFault sampleConnectedNoMap
      sampleInputs rfl⟩

/-- A character is a lowercase hex digit: a decimal digit or one of the
letters a to f. -/
def isLowerHexChar (c : Char) : Bool :=
  c.isDigit || (decide (97 ≤ c.toNat) && decide (c.toNat ≤ 102))

/-- Every hex digit character produced for a nibble is lowercase hex. -/
theorem hexDigitChar_lower_hex : ∀ m : Nat, m < 16 → isLowerHexChar (hexDigitChar m) = true := by
  decide

/-- Every character of a digest rendering is a lowercase hex digit. -/
theorem hexChars_lower (bs : List Nat) :
    (hexChars bs).all isLowerHexChar = true := by
  induction bs with
  | nil => rfl
  | cons b bs ih =>
      simp only [hexChars, List.all_cons, Bool.and_eq_true]
      exact ⟨hexDigitChar_lower_hex (b % 256 / 16) (by omega),
        hexDigitChar_lower_hex (b % 16) (Nat.mod_lt _ (by omega)), ih⟩

/-- Claim C8: join_by_name yields Connecting whose start state carries the
session identifier made of the room name, an underscore, and the lowercase
hex form of the content hash; match_with_random yields Connecting whose
start state carries the lowercase hex form alone; and the hex rendering
uses only lowercase hex characters. -/
theorem join_session_identifiers (n : Netplay Disconnected) (room : String) :
    n.join_by_name room =
      NetplayState.Connecting
        (Netplay.rebuild
          (ConnectingState.connect n
            (StartMethod.Join
              { input_mapping := none
                game_state := n.initial_game_state
                session_id := room ++ "_" ++ hexOfDigest n.rom_hash }
              room)) n) ∧
    n.match_with_random =
      NetplayState.Connecting
        (Netplay.rebuild
          (ConnectingState.connect n
            (StartMethod.MatchWithRandom
              { input_mapping := none
                game_state := n.initial_game_state
                session_id := hexOfDigest n.rom_hash })) n) ∧
    (hexOfDigest n.rom_hash).data.all isLowerHexChar = true :=
  ⟨rfl, rfl, hexChars_lower n.rom_hash.bytes⟩

/-- A second Connecting value sharing the context of `sampleConnecting`
but with different attempt progress. -/
def sampleConnecting2 : Netplay ConnectingState :=
  sampleNetplay (ConnectingState.Failed "no peer")

/-- A second Resuming value sharing the context of `sampleResuming` but
with different attempt progress. -/
def sampleResuming2 : Netplay Resuming :=
  sampleNetplay
    { attempt1 := ConnectingState.Failed "no peer"
      attempt2 := ConnectingState.Connected sampleSession (StartMethod.Resume sampleStartState) }

/-- Claim C9: cancel from Connecting and from Resuming yields Disconnected
with the shared context intact and a payload with no fields — so no
attempt survives in the value; the result is the same whatever the
progress of the dropped attempts, as witnessed by any two values sharing a
context. -/
theorem cancel_always_disconnected (nc nc' : Netplay ConnectingState)
    (nr nr' : Netplay Resuming) :
    nc.cancelConnecting.ctx = nc.ctx ∧
    nc.cancelConnecting.state = Disconnected.mk ∧
    (nc.ctx = nc'.ctx → nc.cancelConnecting = nc'.cancelConnecting) ∧
    nr.cancelResuming.ctx = nr.ctx ∧
    nr.cancelResuming.state = Disconnected.mk ∧
    (nr.ctx = nr'.ctx → nr.cancelResuming = nr'.cancelResuming) := by
  refine ⟨rfl, rfl, fun h => ?_, rfl, rfl, fun h => ?_⟩
  · cases nc; cases nc'
    simp only [Netplay.ctx, SharedContext.mk.injEq] at h
    obtain ⟨h1, h2, h3, h4, h5⟩ := h
    simp [Netplay.cancelConnecting, Netplay.rebuild, h1, h2, h3, h4, h5]
  · cases nr; cases nr'
    simp only [Netplay.ctx, SharedContext.mk.injEq] at h
    obtain ⟨h1, h2, h3, h4, h5⟩ := h
    simp [Netplay.cancelResuming, Netplay.rebuild, h1, h2, h3, h4, h5]

/-- Witness for claim C9: two concrete values per state sharing a context
but differing in attempt progress cancel to the same Disconnected value. -/
theorem cancel_always_disconnected_witness :
    sampleConnecting.ctx = sampleConnecting2.ctx ∧
    sampleConnecting.cancelConnecting = sampleConnecting2.cancelConnecting ∧
    sampleResuming.ctx = sampleResuming2.ctx ∧
    sampleResuming.cancelResuming = sampleResuming2.cancelResuming :=
  ⟨rfl,
    (cancel_always_disconnected sampleConnecting sampleConnecting2 sampleResuming
        sampleResuming2).2.2.1 rfl,
    rfl,
    (cancel_always_disconnected sampleConnecting sampleConnecting2 sampleResuming
        sampleResuming2).2.2.2.2.2 rfl⟩

/-- Claim C10: the constructor writes through the caller's optional
identifier: with none, the fresh UUID becomes both the contents of the
option and the new value's identifier; with some id, both stay id; the
result is Disconnected and its identifier always equals the contents of
the option after the call. -/
theorem new_writes_through_identifier (fresh_rt : Rt) (fresh_uuid : String)
    (config : NetplayBuildConfiguration) (rom_hash : Digest)
    (gs : LocalGameState) (id : String) :
    Netplay.new fresh_rt fresh_uuid config none rom_hash gs =
      ({ rt := fresh_rt
         config := config
         netplay_id := fresh_uuid
         rom_hash := rom_hash
         initial_game_state := gs
         state := Disconnected.mk }, some fresh_uuid) ∧
    Netplay.new fresh_rt fresh_uuid config (some id) rom_hash gs =
      ({ rt := fresh_rt
         config := config
         netplay_id := id
         rom_hash := rom_hash
         initial_game_state := gs
         state := Disconnected.mk }, some id) ∧
    (∀ opt : Option String,
      (Netplay.new fresh_rt fresh_uuid config opt rom_hash gs).2 =
        some (Netplay.new fresh_rt fresh_uuid config opt rom_hash gs).1.netplay_id) := by
  refine ⟨rfl, rfl, fun opt => ?_⟩
  cases opt <;> rfl

end NesBundler
